import Mathlib

/-!
Verification development for the open-webui-tools repository.

The repository holds two plugin scripts:
 * `src/filters/dify_agent_files.py` — a manifold pipe adapter for the Dify
   conversational backend, keeping three JSON-persisted dictionaries
   (chat→conversation/message mapping, chat→model binding, chat→file list)
   plus a global pending-upload flag file; and
 * `src/tools/firecrawl_web_scrape.py` — a web-scrape tool calling the
   Firecrawl API and post-processing HTML locally.

Python dictionaries keyed by strings are embedded as association lists,
the in-memory state of the `Pipe` object as an explicit record that is
threaded functionally, and external I/O (HTTP calls, file reads, library
conversions, clock) as oracle inputs gathered in environment records.
Observable side effects (file writes, outgoing requests) are recorded in
an explicit effect trace so that ordering claims can be stated.
-/

/-- Python `s.startswith(pre)`, as a character-level prefix test. -/
def str_starts_with (s pre : String) : Bool :=
  pre.data.isPrefixOf s.data

/-- Python `s.strip()`: removes whitespace from both ends. -/
def py_strip (s : String) : String :=
  String.mk (((s.data.dropWhile Char.isWhitespace).reverse.dropWhile Char.isWhitespace).reverse)

/-- Python `s.upper()`. -/
def py_upper (s : String) : String :=
  String.mk (s.data.map Char.toUpper)

namespace Dify

/-- Association-list lookup embedding Python `d[k]` / `k in d` on the
string-keyed JSON dictionaries the pipe persists. -/
def dfind {V : Type} : List (String × V) → String → Option V
  | [], _ => none
  | (k, v) :: rest, key => if k = key then some v else dfind rest key

/-- Association-list update embedding Python `d[k] = v`. -/
def dinsert {V : Type} : List (String × V) → String → V → List (String × V)
  | [], key, v => [(key, v)]
  | (k, w) :: rest, key, v =>
    if k = key then (k, v) :: rest else (k, w) :: dinsert rest key v

/-- One entry of `chat_message_mapping`: the remote conversation id and the
ordered message history.  Each Python history element is a singleton dict
`{local_message_id: dify_message_id}`, embedded as a pair. -/
structure ChatMapping where
  dify_conversation_id : String
  messages : List (String × String)
deriving DecidableEq, Repr

/-- The three JSON-persisted dictionaries held on the `Pipe` object:
`self.chat_message_mapping`, `self.dify_chat_model`, `self.dify_file_list`. -/
structure PipeState where
  chat_message_mapping : List (String × ChatMapping)
  dify_chat_model : List (String × String)
  dify_file_list : List (String × List (String × String))
deriving DecidableEq, Repr

/-- One item of a structured message content list (`message["content"]`
when it is a list).  Items whose `type` is neither `text` nor `image_url`
are skipped by the loop, embedded by the `skipped` constructor. -/
inductive ContentItem
  | text (t : String)
  | image_url (u : String)
  | skipped
deriving DecidableEq, Repr

/-- A message's `content` field: either a plain string or a structured
list of items (the `isinstance(..., list)` branch). -/
inductive MsgContent
  | str (s : String)
  | items (l : List ContentItem)
deriving DecidableEq, Repr

/-- One element of the incoming `messages` list. -/
structure Message where
  role : String
  content : MsgContent
deriving DecidableEq, Repr

/-- Embeds `model_name = body["model"][body["model"].find(".") + 1:]`:
everything after the first dot, or the whole string when no dot occurs
(Python `find` returns -1, so the slice starts at 0). -/
def after_first_dot : List Char → Option (List Char)
  | [] => none
  | c :: cs => if c = '.' then some cs else after_first_dot cs

def extract_model_name (s : String) : String :=
  match after_first_dot s.data with
  | some cs => String.mk cs
  | none => s

/-- Modelled from the host library `open_webui.utils.misc` (not part of this
repository): `pop_system_message` returns the first message whose role is
`system` together with the message list with system messages removed. -/
def pop_system_message (msgs : List Message) : Option Message × List Message :=
  (msgs.find? (fun m => m.role = "system"), msgs.filter (fun m => ¬ m.role = "system"))

/-- Python exceptions that can escape or be caught inside `pipe`. -/
inductive PyExc
  | valueError (msg : String)
  | keyError (key : String)
  | indexError (msg : String)
  | exc (msg : String)
deriving DecidableEq, Repr

/-- Embeds `str(e)` for the exceptions above, as interpolated into the
`f"Error: {e}"` strings (Python renders a `KeyError` with quotes). -/
def pyexc_str : PyExc → String
  | .valueError m => m
  | .keyError k => "\x27" ++ k ++ "\x27"
  | .indexError m => m
  | .exc m => m

/-- The conversation-history block of `Pipe.pipe`
(src/filters/dify_agent_files.py lines 267-300), given the number of
messages left after popping the system message.  Returns the updated
state together with `parent_message_id`, or the `ValueError` raised on a
model switch.

 * one message: reset mapping entry, bind model, clear file list;
 * otherwise, when the chat is known: validate (or backfill) the model
   binding, then, if the current message index `k` is positive and the
   stored history has at least `k` entries, take the remote id at
   position `k - 1` as parent and truncate the history to `k` entries. -/
def history_update (st : PipeState) (chat_id model_name : String) (nmsgs : Nat) :
    Except PyExc (PipeState × Option String) :=
  if nmsgs = 1 then
    .ok ({ chat_message_mapping :=
             dinsert st.chat_message_mapping chat_id ⟨"", []⟩,
           dify_chat_model := dinsert st.dify_chat_model chat_id model_name,
           dify_file_list := dinsert st.dify_file_list chat_id [] }, none)
  else
    match dfind st.chat_message_mapping chat_id with
    | none => .ok (st, none)
    | some m =>
      let checked : Except PyExc PipeState :=
        match dfind st.dify_chat_model chat_id with
        | some prev =>
          if prev ≠ model_name then
            .error (.valueError
              ("Cannot change model in an existing conversation. This conversation was started with "
                ++ prev))
          else .ok st
        | none =>
          .ok { st with dify_chat_model := dinsert st.dify_chat_model chat_id model_name }
      match checked with
      | .error e => .error e
      | .ok st1 =>
        let k := nmsgs - 1
        if 0 < k ∧ k ≤ m.messages.length then
          let truncated : ChatMapping := { m with messages := m.messages.take k }
          let st2 : PipeState :=
            { st1 with chat_message_mapping :=
                dinsert st1.chat_message_mapping chat_id truncated }
          .ok (st2, (m.messages.get? (k - 1)).map Prod.snd)
        else
          .ok (st1, none)

/-- Parsed content of the ad-hoc flag file `data/dify/dify_file_data.json`
(assumed readable and well-formed, as `__init__` creates it):
`{flag, name, id, user_id}`. -/
structure FileInfo where
  flag : Bool
  name : String
  id : String
  user_id : String
deriving DecidableEq, Repr

/-- One element of the `files` list sent to Dify.  Image entries carry a
literal `"url": ""` field, flag-file entries do not. -/
structure FileRef where
  ftype : String
  transfer_method : String
  url : Option String
  upload_file_id : String
deriving DecidableEq, Repr

/-- The `inputs` dict of the payload (model name and system message). -/
structure Inputs where
  model : String
  system_message : MsgContent
deriving DecidableEq, Repr

/-- The JSON payload posted to `/chat-messages`. -/
structure Payload where
  inputs : Inputs
  parent_message_id : Option String
  query : String
  response_mode : String
  conversation_id : String
  user : String
  files : List FileRef
deriving DecidableEq, Repr

/-- Observable side effects of a pipe invocation, in program order:
file writes to the flag file and the three state files, and outgoing
HTTP interactions. -/
inductive Effect
  | image_upload_call (url user : String)
  | write_flag_file (fi : FileInfo)
  | upload_call (user file_name : String)
  | chat_request (payload : Payload) (streaming : Bool)
  | write_chat_mapping (d : List (String × ChatMapping))
  | write_chat_model (d : List (String × String))
  | write_file_list (d : List (String × List (String × String)))
deriving DecidableEq, Repr

/-- Embeds `Pipe.save_state`: writes the three state dictionaries to their JSON
files, in this order. -/
def save_state_effects (st : PipeState) : List Effect :=
  [.write_chat_mapping st.chat_message_mapping,
   .write_chat_model st.dify_chat_model,
   .write_file_list st.dify_file_list]

/-- Suffix of `l` after the last occurrence of `sep` (or `l` itself when
`sep` does not occur). -/
def suffix_after_last (sep : Char) (l : List Char) : List Char :=
  (l.reverse.takeWhile (fun c => ¬ c = sep)).reverse

/-- The extension part of `os.path.splitext` on a basename: leading dots
do not start an extension. -/
def splitext_ext (base : List Char) : List Char :=
  let lead := (base.takeWhile (fun c => c = '.')).length
  let rest := base.drop lead
  if rest.contains '.' then '.' :: suffix_after_last '.' rest else []

/-- Python `str.strip(".")`: removes dots from both ends. -/
def strip_dots (l : List Char) : List Char :=
  ((l.dropWhile (fun c => c = '.')).reverse.dropWhile (fun c => c = '.')).reverse

/-- Embeds `get_file_extension`: `os.path.splitext(file_name)[1].strip(".")`. -/
def get_file_extension (file_name : String) : String :=
  String.mk (strip_dots (splitext_ext (suffix_after_last '/' file_name.data)))

def document_exts : List String :=
  ["TXT", "MD", "MARKDOWN", "PDF", "HTML", "XLSX", "XLS", "DOC", "DOCX",
   "CSV", "EML", "MSG", "PPTX", "PPT", "XML", "EPUB"]

def image_exts : List String := ["JPG", "JPEG", "PNG", "GIF", "WEBP", "SVG"]

def audio_exts : List String := ["MP3", "M4A", "WAV", "WEBM", "AMR"]

def video_exts : List String := ["MP4", "MOV", "MPEG", "MPGA"]

/-- File-type classification of the flag-file upload block (default
`custom`, then the extension lists checked in source order). -/
def dify_file_type (file_name : String) : String :=
  let ext := py_upper (get_file_extension file_name)
  if document_exts.contains ext then "document"
  else if image_exts.contains ext then "image"
  else if audio_exts.contains ext then "audio"
  else if video_exts.contains ext then "video"
  else "custom"

/-- The structured-content loop of `pipe` (lines 313-328): concatenates
text items into the query and uploads each `image_url` item through
`upload_images`, which wraps any failure into a `ValueError` that
propagates out of `pipe`.  The upload oracle stands for the HTTP upload;
the effect trace records the attempted uploads. -/
def process_items (upload : String → String → Except String String) (user : String) :
    List ContentItem → Except String String × List FileRef × List Effect
  | [] => (.ok "", [], [])
  | item :: rest =>
    match item with
    | .skipped => process_items upload user rest
    | .text t =>
      let r := process_items upload user rest
      match r.1 with
      | .ok q => (.ok (t ++ q), r.2.1, r.2.2)
      | .error e => (.error e, r.2.1, r.2.2)
    | .image_url u =>
      match upload u user with
      | .error e =>
        (.error ("Failed to process base64 image data: " ++ e), [],
         [.image_upload_call u user])
      | .ok fid =>
        let r := process_items upload user rest
        (r.1,
         { ftype := "image", transfer_method := "local_file", url := some "",
           upload_file_id := fid } :: r.2.1,
         .image_upload_call u user :: r.2.2)

/-- The pending-upload block of `pipe` (lines 333-391): when the flag in
`dify_file_data.json` is true, it is first set to false and the file is
written back, then the recorded file is fetched and uploaded to the Dify
file server; any failure of that attempt is swallowed.  Returns the file
refs to append and the effects, in order. -/
def flag_block (fi : FileInfo) (get_file : String → String → Except String String) :
    List FileRef × List Effect :=
  if fi.flag then
    let cleared : FileInfo := { fi with flag := false }
    let fname := fi.id ++ "_" ++ fi.name
    let ftype := dify_file_type fi.name
    match get_file fi.user_id fname with
    | .ok fid =>
      ([{ ftype := ftype, transfer_method := "local_file", url := none,
          upload_file_id := fid }],
       [.write_flag_file cleared, .upload_call fi.user_id fname])
    | .error _ =>
      ([], [.write_flag_file cleared, .upload_call fi.user_id fname])
  else ([], [])

/-- Parsed Dify streaming events, with the fields the handler reads
(`data.get(...)` defaults already applied). -/
inductive DifyEvent
  | message (answer : String)
  | message_file
  | message_end (conversation_id message_id : String)
  | err (status code message : String)
  | other (name : String)
deriving DecidableEq, Repr

/-- One decoded line of the streaming response body.  A line either is
empty, does not carry the `data: ` prefix, carries malformed JSON
(`json.loads` raises), or carries a parsed Dify event. -/
inductive StreamLine
  | blank
  | not_data (raw : String)
  | data_malformed (raw : String)
  | data_event (e : DifyEvent)
deriving DecidableEq, Repr

/-- Outcome of the streaming HTTP POST: a transport-level
`RequestException`, or a response with status, text and body lines. -/
inductive StreamHTTP
  | transport_error (e : String)
  | response (status : Nat) (text : String) (lines : List StreamLine)
deriving DecidableEq, Repr

/-- The body of a blocking response (`res.get` defaults applied). -/
structure BlockingBody where
  conversation_id : String
  message_id : String
  answer : String
deriving DecidableEq, Repr

deriving instance DecidableEq for Except

/-- Outcome of the blocking HTTP POST: transport failure, or a response
whose JSON body either parses or raises (`.error` is the decode error
text, a `RequestException` subclass in the requests library). -/
inductive BlockingHTTP
  | transport_error (e : String)
  | response (status : Nat) (text : String) (body : Except String BlockingBody)
deriving DecidableEq, Repr

/-- The line loop of `Pipe.stream_response` (lines 447-489).  `message`
events yield their answer text; `message_end` updates the mapping entry,
flushes the state (`save_state`) and breaks; `error` events yield an
error chunk and break; malformed JSON and unexpected structure
(`KeyError`, e.g. an unknown chat at `message_end`) are printed and the
loop continues. -/
def stream_loop (chat_id message_id : String) (st : PipeState) :
    List StreamLine → List String × PipeState × List Effect
  | [] => ([], st, [])
  | l :: rest =>
    match l with
    | .blank => stream_loop chat_id message_id st rest
    | .not_data _ => stream_loop chat_id message_id st rest
    | .data_malformed _ => stream_loop chat_id message_id st rest
    | .data_event ev =>
      match ev with
      | .message a =>
        let r := stream_loop chat_id message_id st rest
        (a :: r.1, r.2.1, r.2.2)
      | .message_file => stream_loop chat_id message_id st rest
      | .other _ => stream_loop chat_id message_id st rest
      | .message_end c mi =>
        match dfind st.chat_message_mapping chat_id with
        | none => stream_loop chat_id message_id st rest
        | some m =>
          let entry : ChatMapping := ⟨c, m.messages ++ [(message_id, mi)]⟩
          let st2 : PipeState :=
            { st with chat_message_mapping := dinsert st.chat_message_mapping chat_id entry }
          ([], st2, save_state_effects st2)
      | .err s code msg =>
        (["Error: Error " ++ s ++ ": " ++ msg ++ " (" ++ code ++ ")"], st, [])

/-- Embeds `Pipe.stream_response`: transport failures and non-200 statuses are
caught by the generator's own handlers and yielded as error chunks;
otherwise the line loop runs.  Returns (chunks, state, effects). -/
def stream_response (st : PipeState) (chat_id message_id : String) :
    StreamHTTP → List String × PipeState × List Effect
  | .transport_error e => (["Error: Request failed: " ++ e], st, [])
  | .response status text lines =>
    if ¬ status = 200 then
      (["Error: HTTP Error " ++ toString status ++ ": " ++ text], st, [])
    else
      stream_loop chat_id message_id st lines

/-- Embeds `Pipe.non_stream_response`.  Transport failures and JSON decode
failures are caught by its `RequestException` handler and returned as
error strings; a non-200 status raises a bare `Exception` and an unknown
chat raises `KeyError`, both of which escape to `pipe` (which catches
them).  Returns (result-or-exception, state, effects). -/
def non_stream_response (st : PipeState) (chat_id message_id : String) :
    BlockingHTTP → Except PyExc String × PipeState × List Effect
  | .transport_error e => (.ok ("Error: " ++ e), st, [])
  | .response status text body =>
    if ¬ status = 200 then
      (.error (.exc ("HTTP Error " ++ toString status ++ ": " ++ text)), st, [])
    else
      match body with
      | .error e => (.ok ("Error: " ++ e), st, [])
      | .ok b =>
        match dfind st.chat_message_mapping chat_id with
        | none => (.error (.keyError chat_id), st, [])
        | some m =>
          let entry : ChatMapping := ⟨b.conversation_id, m.messages ++ [(message_id, b.message_id)]⟩
          let st2 : PipeState :=
            { st with chat_message_mapping := dinsert st.chat_message_mapping chat_id entry }
          (.ok b.answer, st2, save_state_effects st2)

/-- External inputs of one pipe invocation: the parsed flag file, the
image-upload and file-server oracles, and the outcome of the chat HTTP
call in each mode. -/
structure PipeEnv where
  file_info : FileInfo
  upload_images : String → String → Except String String
  get_file_server : String → String → Except String String
  stream_result : StreamHTTP
  blocking_result : BlockingHTTP

/-- The request body handed in by the host. -/
structure Body where
  model : String
  messages : List Message
  stream : Bool
deriving DecidableEq, Repr

/-- A pipe return value: a plain string or the chunk sequence of the
streaming generator. -/
inductive PipeRet
  | str (s : String)
  | chunks (l : List String)
deriving DecidableEq, Repr

/-- Result of a pipe invocation: the returned value or escaped exception,
the final in-memory state, and the effect trace.  State mutations and
effects performed before an exception persist, as in Python. -/
structure PipeOutcome where
  result : Except PyExc PipeRet
  state : PipeState
  effects : List Effect
deriving DecidableEq, Repr

/-- Embeds `inputs["system_message"]`: `system_message.get("content", "")` when a
system message was popped, else the empty string. -/
def sys_content : Option Message → MsgContent
  | some sm => sm.content
  | none => .str ""

/-- Embeds `Pipe.pipe` (src/filters/dify_agent_files.py lines 230-434):
special tasks return early; the system message is popped; the
conversation-history block runs (`history_update`); the last message's
content is turned into the query and image uploads; the pending-upload
flag block runs; the payload is built (raising `KeyError` when the chat
has no mapping entry); finally the streaming or blocking exchange runs,
with `pipe`'s own handler turning exceptions escaping
`non_stream_response` into error strings. -/
def pipe (st : PipeState) (env : PipeEnv) (body : Body)
    (chat_id message_id user_email : String) (task : Option String) : PipeOutcome :=
  let model_name := extract_model_name body.model
  if task = some "title_generation" then
    ⟨.ok (.str model_name), st, []⟩
  else if task = some "tags_generation" then
    ⟨.ok (.str ("\x7b\"tags\":[" ++ model_name ++ "]\x7d")), st, []⟩
  else
    let popped := pop_system_message body.messages
    let system_message := popped.1
    let messages := popped.2
    match history_update st chat_id model_name messages.length with
    | .error e => ⟨.error e, st, []⟩
    | .ok (st1, parent_message_id) =>
      match messages.getLast? with
      | none => ⟨.error (.indexError "list index out of range"), st1, []⟩
      | some message =>
        let inputs : Inputs :=
          { model := model_name, system_message := sys_content system_message }
        let content_result : Except String String × List FileRef × List Effect :=
          match message.content with
          | .str q => (.ok q, [], [])
          | .items l => process_items env.upload_images user_email l
        match content_result with
        | (.error e, _, es) => ⟨.error (.valueError e), st1, es⟩
        | (.ok query, files0, es0) =>
          let fb := flag_block env.file_info env.get_file_server
          let file_list := files0 ++ fb.1
          let effs1 := es0 ++ fb.2
          match dfind st1.chat_message_mapping chat_id with
          | none => ⟨.error (.keyError chat_id), st1, effs1⟩
          | some m1 =>
            let payload : Payload :=
              { inputs := inputs,
                parent_message_id := parent_message_id,
                query := query,
                response_mode := if body.stream then "streaming" else "blocking",
                conversation_id := m1.dify_conversation_id,
                user := user_email,
                files := file_list }
            let effs2 : List Effect := effs1 ++ [.chat_request payload body.stream]
            if body.stream then
              let r := stream_response st1 chat_id message_id env.stream_result
              ⟨.ok (.chunks r.1), r.2.1, effs2 ++ r.2.2⟩
            else
              let r := non_stream_response st1 chat_id message_id env.blocking_result
              match r.1 with
              | .ok s => ⟨.ok (.str s), r.2.1, effs2 ++ r.2.2⟩
              | .error e =>
                ⟨.ok (.str ("Error: " ++ pyexc_str e)), r.2.1, effs2 ++ r.2.2⟩

/-- Outcome of reading one state file in `Pipe.load_state`: the file is
absent, parses to a dictionary, or raises while being read or parsed. -/
inductive FileRead (α : Type)
  | absent
  | ok (d : α)
  | err (e : String)
deriving DecidableEq, Repr

/-- Embeds `Pipe.load_state` (lines 105-139): the three files are read in order
inside one `try`; an absent file yields an empty dictionary for that
slot, and any raised exception is swallowed by resetting all three
dictionaries to empty. -/
def load_state (r1 : FileRead (List (String × ChatMapping)))
    (r2 : FileRead (List (String × String)))
    (r3 : FileRead (List (String × List (String × String)))) : PipeState :=
  match r1 with
  | .err _ => ⟨[], [], []⟩
  | _ =>
    let d1 := match r1 with | .ok d => d | _ => []
    match r2 with
    | .err _ => ⟨[], [], []⟩
    | _ =>
      let d2 := match r2 with | .ok d => d | _ => []
      match r3 with
      | .err _ => ⟨[], [], []⟩
      | _ =>
        let d3 := match r3 with | .ok d => d | _ => []
        ⟨d1, d2, d3⟩

/-- A stream line at which the handler's loop stops: a parsed
`message_end` or `error` event. -/
def terminal_line : StreamLine → Bool
  | .data_event (.message_end _ _) => true
  | .data_event (.err _ _ _) => true
  | _ => false

/-- Whether a pipe result is a raised `ValueError` (the model-switch
error is the only `ValueError` raised by the history block). -/
def is_value_error : Except PyExc PipeRet → Bool
  | .error (.valueError _) => true
  | _ => false

end Dify

namespace Firecrawl

/-- A JSON value as Python sees the `success` field of the Firecrawl
response (enough constructors to express Python truthiness). -/
inductive JVal
  | null
  | bool (b : Bool)
  | num (n : Int)
  | str (s : String)
deriving DecidableEq, Repr

/-- Python truthiness of a JSON value (`if not response_data.get("success")`). -/
def JVal.truthy : JVal → Bool
  | .null => false
  | .bool b => b
  | .num n => decide (¬ n = 0)
  | .str s => decide (¬ s = "")

/-- Body of a 200 Firecrawl scrape response:
`{success, error?, data: {format: content, metadata: ...}}`.  The `data`
dictionary maps formats (and `metadata`) to their string content. -/
structure ScrapeBody where
  success : JVal
  err : Option String
  data : List (String × String)
deriving DecidableEq, Repr

/-- Outcome of the scrape HTTP POST: an exception raised during the
request (caught by the tool's outer handler), or a response whose JSON
body either parses or raises. -/
inductive ScrapeHTTP
  | exc (e : String)
  | response (status : Nat) (body : Except String ScrapeBody)
deriving DecidableEq, Repr

/-- The outgoing request of `web_scrape`: the normalized url and the
format list placed in the payload. -/
inductive ScrapeEff
  | request (url : String) (formats : List String)
deriving DecidableEq, Repr

/-- External inputs of a `web_scrape` call: the HTTP outcome, the clock
(`datetime.now` rendering), and the local conversion passes.
`text_cleaner_fn` abstracts the regex-based `Tools.text_cleaner` (the
`re` library); `html2text_fn` and `bs4_fn` abstract
`Tools.html_clean_html2text` and `Tools.html_clean_bs4`, which wrap the
external `html2text` and BeautifulSoup libraries and may raise — in
particular when handed `None` because no `html` content came back.
`pretty` abstracts the `json.dumps`/`loads` pretty-printing of the
content dictionary. -/
structure ScrapeEnv where
  http : ScrapeHTTP
  now : String
  text_cleaner_fn : String → String
  html2text_fn : Option String → Except String String
  bs4_fn : Option String → Except String String
  pretty : List (String × String) → String

/-- Association lookup on the response `data` dictionary. -/
def sfind : List (String × String) → String → Option String
  | [], _ => none
  | (k, v) :: rest, key => if k = key then some v else sfind rest key

/-- The content-assembly loop of `web_scrape` (lines 312-328): for each
remaining format, `html` is returned verbatim, `markdown` is cleaned,
`html2text`/`html2bs4` convert the `html` content (raising inside the
outer try when the conversion fails), and any other format falls back to
the raw content with `""` default. -/
def build_content (env : ScrapeEnv) (rdata : List (String × String)) :
    List String → Except String (List (String × String))
  | [] => .ok []
  | f :: rest =>
    let data := (sfind rdata f).getD ""
    let data_html := sfind rdata "html"
    let entry : Except String (Option String) :=
      if f = "html" then .ok (some data)
      else if f = "markdown" then .ok (some (env.text_cleaner_fn data))
      else if f = "html2text" then (env.html2text_fn data_html).map some
      else if f = "html2bs4" then (env.bs4_fn data_html).map some
      else .ok none
    match entry with
    | .error e => .error e
    | .ok v =>
      match build_content env rdata rest with
      | .error e => .error e
      | .ok restc => .ok ((f, v.getD data) :: restc)

/-- Python-dict-style rendering of the payload, as interpolated into the
400-status error message (approximates Python's `repr`). -/
def payload_repr (url : String) (formats : List String) : String :=
  "\x7b\x27url\x27: \x27" ++ url ++ "\x27, \x27formats\x27: " ++ toString formats ++ "\x7d"

/-- Embeds `Tools.web_scrape` (src/tools/firecrawl_web_scrape.py lines 217-344),
for a call starting from a fresh tool (`_skip_html` false), given the
configured `valves.formats`, the environment and the target url.
Returns the result string and the outgoing-request trace.  The whole
body runs inside one `try` whose handler returns `"Error: " + str(e)`,
so no exception escapes.

 * when any configured format starts with `html2`, `html` is inserted at
   the front of the format list and `_skip_html` is set;
 * urls without a scheme get `https://` prepended;
 * the payload formats are the configured formats with every `html2*`
   entry removed;
 * non-200 statuses, decode failures, falsy `success`, a missing first
   format (IndexError on an empty list) and empty content all return
   `Error:` strings;
 * otherwise the inserted `html` is popped again and the content block
   is assembled and returned behind the timestamp header. -/
def web_scrape (valves_formats : List String) (env : ScrapeEnv) (url : String) :
    String × List ScrapeEff :=
  let hasDerived := valves_formats.any (fun f => str_starts_with f "html2")
  let formats1 := if hasDerived then "html" :: valves_formats else valves_formats
  let url1 :=
    if ¬ str_starts_with url "http://" = true ∧ ¬ str_starts_with url "https://" = true
    then "https://" ++ url else url
  let pf := formats1.filter (fun f => ¬ str_starts_with f "html2")
  let res : String :=
    match env.http with
    | .exc e => "Error: " ++ e
    | .response status body =>
      if ¬ status = 200 then
        if status = 400 then
          "Error: Failed to scrape URL. Status code: 400 - payload send: "
            ++ payload_repr url1 pf
        else
          "Error: Failed to scrape URL. Status code: " ++ toString status
      else
        match body with
        | .error e => "Error: " ++ e
        | .ok b =>
          if ¬ b.success.truthy then
            "Error: " ++ (b.err.getD "Unknown error occurred")
          else
            match formats1.head? with
            | none => "Error: list index out of range"
            | some f0 =>
              let d0 := sfind b.data f0
              if d0.getD "" = "" then
                "Error: No content found in " ++ f0 ++ " format"
              else
                let formats2 := if hasDerived then formats1.tail else formats1
                match build_content env b.data formats2 with
                | .error e => "Error: " ++ e
                | .ok content =>
                  let meta :=
                    match sfind b.data "metadata" with
                    | some s => s
                    | none => "None"
                  py_strip ("Date now: " ++ env.now ++ "\n"
                    ++ "Page content from URL: " ++ url1 ++ "\n"
                    ++ "Metadata: " ++ meta ++ "\n"
                    ++ env.pretty content ++ "\n")
  (res, [ScrapeEff.request url1 pf])

end Firecrawl

namespace Fixtures

/-- A concrete scrape environment whose upstream answer is a 200 response
with a truthy but non-`true` `success` value. -/
def scrape_env_yes : Firecrawl.ScrapeEnv :=
  { http := .response 200 (.ok ⟨.str "yes", none, [("markdown", "hi")]⟩),
    now := "2025-01-01 00:00:00",
    text_cleaner_fn := fun s => s,
    html2text_fn := fun _ => .ok "",
    bs4_fn := fun _ => .ok "",
    pretty := fun _ => "CONTENT" }

/-- A concrete scrape environment whose upstream answer is a 500. -/
def scrape_env_500 : Firecrawl.ScrapeEnv :=
  { http := .response 500 (.ok ⟨.bool true, none, []⟩),
    now := "2025-01-01 00:00:00",
    text_cleaner_fn := fun s => s,
    html2text_fn := fun _ => .ok "",
    bs4_fn := fun _ => .ok "",
    pretty := fun _ => "CONTENT" }

/-- A concrete pipe environment: pending-upload flag unset, uploads
succeed, the chat HTTP call fails at the transport level in both modes. -/
def dify_env : Dify.PipeEnv :=
  { file_info := ⟨false, "", "", ""⟩,
    upload_images := fun _ _ => .ok "img-id",
    get_file_server := fun _ _ => .ok "srv-id",
    stream_result := .transport_error "down",
    blocking_result := .transport_error "down" }

/-- Like `dify_env` but with the pending-upload flag set for a file
`report.pdf`. -/
def dify_env_flag : Dify.PipeEnv :=
  { file_info := ⟨true, "report.pdf", "42", "alice"⟩,
    upload_images := fun _ _ => .ok "img-id",
    get_file_server := fun _ _ => .ok "srv-id",
    stream_result := .transport_error "down",
    blocking_result := .transport_error "down" }

/-- Like `dify_env` but the streaming response consists of one malformed
`data: ` line. -/
def dify_env_malformed : Dify.PipeEnv :=
  { file_info := ⟨false, "", "", ""⟩,
    upload_images := fun _ _ => .ok "img-id",
    get_file_server := fun _ _ => .ok "srv-id",
    stream_result := .response 200 "" [.data_malformed "not json"],
    blocking_result := .transport_error "down" }

/-- A state in which chat `c` has a three-entry history and is bound to
model `M`. -/
def dify_st3 : Dify.PipeState :=
  ⟨[("c", ⟨"conv", [("l1", "r1"), ("l2", "r2"), ("l3", "r3")]⟩)], [("c", "M")], []⟩

/-- A state in which chat `c` has a model binding but no mapping entry. -/
def dify_st_nomap : Dify.PipeState :=
  ⟨[], [("c", "A")], []⟩

/-- A request body with three plain-text messages for model `dify.M`,
blocking mode. -/
def body3 : Dify.Body :=
  { model := "dify.M",
    messages := [⟨"user", .str "hi"⟩, ⟨"assistant", .str "yo"⟩, ⟨"user", .str "again"⟩],
    stream := false }

/-- A request body with two plain-text messages for model `dify.B`,
blocking mode. -/
def body2 : Dify.Body :=
  { model := "dify.B",
    messages := [⟨"user", .str "hi"⟩, ⟨"user", .str "again"⟩],
    stream := false }

/-- A pipe environment whose blocking chat call answers 500. -/
def dify_env_500 : Dify.PipeEnv :=
  { file_info := ⟨false, "", "", ""⟩,
    upload_images := fun _ _ => .ok "img-id",
    get_file_server := fun _ _ => .ok "srv-id",
    stream_result := .transport_error "down",
    blocking_result := .response 500 "oops" (.ok ⟨"", "", ""⟩) }

/-- A request body with a single plain-text message. -/
def body1 : Dify.Body :=
  { model := "dify.M",
    messages := [⟨"user", .str "hi"⟩],
    stream := false }

end Fixtures

/-- Helper: looking up the key just inserted finds the new value. -/
theorem dfind_dinsert_self {V : Type} (d : List (String × V)) (k : String) (v : V) :
    Dify.dfind (Dify.dinsert d k v) k = some v := by
  induction d with
  | nil => simp [Dify.dinsert, Dify.dfind]
  | cons hd tl ih =>
    by_cases h : hd.1 = k
    · simp [Dify.dinsert, Dify.dfind, h]
    · simp [Dify.dinsert, Dify.dfind, h, ih]

/-- Helper: inserting one key leaves lookups of other keys unchanged. -/
theorem dfind_dinsert_other {V : Type} (d : List (String × V)) (k k2 : String) (v : V)
    (hne : k ≠ k2) : Dify.dfind (Dify.dinsert d k v) k2 = Dify.dfind d k2 := by
  induction d with
  | nil => simp [Dify.dinsert, Dify.dfind, hne]
  | cons hd tl ih =>
    by_cases h : hd.1 = k
    · simp [Dify.dinsert, Dify.dfind, h, hne]
    · simp only [Dify.dinsert, h, if_false]
      by_cases h2 : hd.1 = k2
      · simp [Dify.dfind, h2]
      · simp [Dify.dfind, h2, ih]

/-- Helper: a string that is `"Error: " ++ c` still begins with
`"Error: "` after appending more text. -/
theorem error_prefix_extend (a b c : String) (h : a = "Error: " ++ c) :
    ∃ rest, a ++ b = "Error: " ++ rest :=
  ⟨c ++ b, by rw [h, String.append_assoc]⟩

/-- C5: whenever the configured formats contain a derived (`html2*`)
format, the formats list sent in the upstream request contains `html`
and no derived format; in particular, configured formats
`["html2text"]` yield an upstream request for `["html"]` only. -/
theorem c5_derived_formats_request_html (v : List String) (env : Firecrawl.ScrapeEnv)
    (url : String) (h : v.any (fun f => str_starts_with f "html2") = true) :
    ∃ u, (Firecrawl.web_scrape v env url).2 =
        [Firecrawl.ScrapeEff.request u
          (("html" :: v).filter (fun f => ¬ str_starts_with f "html2"))]
      ∧ "html" ∈ ("html" :: v).filter (fun f => ¬ str_starts_with f "html2")
      ∧ (∀ f ∈ ("html" :: v).filter (fun f => ¬ str_starts_with f "html2"),
          ¬ str_starts_with f "html2" = true)
      ∧ ∃ u2, (Firecrawl.web_scrape ["html2text"] env url).2 =
          [Firecrawl.ScrapeEff.request u2 ["html"]] := by
  refine ⟨if ¬ str_starts_with url "http://" = true ∧ ¬ str_starts_with url "https://" = true
          then "https://" ++ url else url, ?_, ?_, ?_, ⟨_, rfl⟩⟩
  · simp [Firecrawl.web_scrape, h]
  · exact List.mem_filter.mpr ⟨List.mem_cons_self _ _, by decide⟩
  · intro f hf
    simpa using (List.mem_filter.mp hf).2

/-- Witness for C5 at the configured formats `["html2text"]`. -/
theorem c5_witness :
    (["html2text"].any (fun f => str_starts_with f "html2") = true)
    ∧ ∃ u, (Firecrawl.web_scrape ["html2text"] Fixtures.scrape_env_yes "example.com").2 =
        [Firecrawl.ScrapeEff.request u
          (("html" :: ["html2text"]).filter (fun f => ¬ str_starts_with f "html2"))]
      ∧ "html" ∈ ("html" :: ["html2text"]).filter (fun f => ¬ str_starts_with f "html2")
      ∧ (∀ f ∈ ("html" :: ["html2text"]).filter (fun f => ¬ str_starts_with f "html2"),
          ¬ str_starts_with f "html2" = true)
      ∧ ∃ u2, (Firecrawl.web_scrape ["html2text"] Fixtures.scrape_env_yes "example.com").2 =
          [Firecrawl.ScrapeEff.request u2 ["html"]] :=
  ⟨by decide,
   c5_derived_formats_request_html ["html2text"] Fixtures.scrape_env_yes "example.com"
     (by decide)⟩

/-- C6 (amended): upstream scrape failures are surfaced as `Error:`
strings and never as exceptions — a non-200 status, a falsy `success`
value in a 200 body (the code tests Python truthiness of `success`, not
equality with `true`), an exception during the request, or a JSON decode
failure all yield a string beginning with `Error: `; `web_scrape` is a
total function, so no exception escapes. -/
theorem c6_scrape_error_strings (v : List String) (env : Firecrawl.ScrapeEnv)
    (url : String) :
    (∀ status body, env.http = .response status body → ¬ status = 200 →
        ∃ rest, (Firecrawl.web_scrape v env url).1 = "Error: " ++ rest)
    ∧ (∀ b, env.http = .response 200 (.ok b) → b.success.truthy = false →
        ∃ rest, (Firecrawl.web_scrape v env url).1 = "Error: " ++ rest)
    ∧ (∀ e, env.http = .exc e →
        (Firecrawl.web_scrape v env url).1 = "Error: " ++ e)
    ∧ (∀ e, env.http = .response 200 (.error e) →
        (Firecrawl.web_scrape v env url).1 = "Error: " ++ e) := by
  refine ⟨?_, ?_, ?_, ?_⟩
  · intro status body henv hne
    by_cases h4 : status = 400
    · subst h4
      simp only [Firecrawl.web_scrape, henv, hne, not_false_iff, if_true, if_pos rfl]
      exact error_prefix_extend _ _
        "Failed to scrape URL. Status code: 400 - payload send: " rfl
    · simp only [Firecrawl.web_scrape, henv, hne, not_false_iff, if_true, h4, if_false]
      exact error_prefix_extend _ _ "Failed to scrape URL. Status code: " rfl
  · intro b henv hfalsy
    refine ⟨b.err.getD "Unknown error occurred", ?_⟩
    simp [Firecrawl.web_scrape, henv, hfalsy]
  · intro e henv
    simp [Firecrawl.web_scrape, henv]
  · intro e henv
    simp [Firecrawl.web_scrape, henv]

/-- Witness for C6 on a concrete 500 response. -/
theorem c6_witness :
    (Fixtures.scrape_env_500.http = .response 500 (.ok ⟨.bool true, none, []⟩))
    ∧ ∃ rest,
        (Firecrawl.web_scrape ["markdown"] Fixtures.scrape_env_500 "https://x").1 =
          "Error: " ++ rest :=
  ⟨rfl,
   (c6_scrape_error_strings ["markdown"] Fixtures.scrape_env_500 "https://x").1
     500 (.ok ⟨.bool true, none, []⟩) rfl (by decide)⟩

/-- Counterexample to C6 as stated: a 200 response whose `success` value
is the string `"yes"` — truthy but not equal to `true` — is not reported
as an error; the call returns the scraped content block instead. -/
theorem c6_counterexample :
    (¬ (Firecrawl.JVal.str "yes") = .bool true)
    ∧ str_starts_with
        ((Firecrawl.web_scrape ["markdown"] Fixtures.scrape_env_yes "https://x").1)
        "Error:" = false := by
  exact ⟨by decide, by decide⟩

/-- C8: if reading or parsing any of the three state files raises, the
error is swallowed and all three in-memory dictionaries are left empty;
`load_state` is a total function, so nothing is raised to the caller. -/
theorem c8_load_state_swallows_failures
    (r1 : Dify.FileRead (List (String × Dify.ChatMapping)))
    (r2 : Dify.FileRead (List (String × String)))
    (r3 : Dify.FileRead (List (String × List (String × String))))
    (h : (∃ e, r1 = .err e) ∨ (∃ e, r2 = .err e) ∨ (∃ e, r3 = .err e)) :
    Dify.load_state r1 r2 r3 = ⟨[], [], []⟩ := by
  rcases h with ⟨e, he⟩ | ⟨e, he⟩ | ⟨e, he⟩
  · subst he
    simp [Dify.load_state]
  · subst he
    cases r1 <;> simp [Dify.load_state]
  · subst he
    cases r1 <;> cases r2 <;> simp [Dify.load_state]

/-- Witness for C8: the second file raises while the first parsed. -/
theorem c8_witness :
    Dify.load_state (.ok [("chat", ⟨"conv", [("l", "r")]⟩)]) (.err "io error") .absent
      = ⟨[], [], []⟩ :=
  c8_load_state_swallows_failures _ _ _ (Or.inr (Or.inl ⟨"io error", rfl⟩))

/-- Helper: non-terminal stream lines (blank, non-data, malformed,
`message`, `message_file`, unknown events) change neither the state nor
the effect trace of the stream loop. -/
theorem stream_loop_skip (chat_id message_id : String) (st : Dify.PipeState)
    (pre rest : List Dify.StreamLine)
    (hpre : ∀ l ∈ pre, Dify.terminal_line l = false) :
    (Dify.stream_loop chat_id message_id st (pre ++ rest)).2 =
      (Dify.stream_loop chat_id message_id st rest).2 := by
  induction pre with
  | nil => rfl
  | cons l tl ih =>
    have hl := hpre l (List.mem_cons_self _ _)
    have htl : ∀ x ∈ tl, Dify.terminal_line x = false :=
      fun x hx => hpre x (List.mem_cons_of_mem _ hx)
    cases l with
    | blank => simpa [Dify.stream_loop] using ih htl
    | not_data r => simpa [Dify.stream_loop] using ih htl
    | data_malformed r => simpa [Dify.stream_loop] using ih htl
    | data_event ev =>
      cases ev with
      | message a => simpa [Dify.stream_loop] using ih htl
      | message_file => simpa [Dify.stream_loop] using ih htl
      | other n => simpa [Dify.stream_loop] using ih htl
      | message_end c mi => simp [Dify.terminal_line] at hl
      | err s c m2 => simp [Dify.terminal_line] at hl

/-- Helper: the normal path of `pipe` with no special task, a text-only
last message, a successful history block, and a mapping entry present
when the payload is built. -/
theorem pipe_text_run (st st1 : Dify.PipeState) (env : Dify.PipeEnv) (body : Dify.Body)
    (chat_id message_id user_email : String) (sys : Option Dify.Message)
    (msgs : List Dify.Message) (p : Option String) (m1 : Dify.ChatMapping)
    (lm : Dify.Message) (q : String)
    (hpop : Dify.pop_system_message body.messages = (sys, msgs))
    (hhist : Dify.history_update st chat_id (Dify.extract_model_name body.model)
        msgs.length = .ok (st1, p))
    (hlast : msgs.getLast? = some lm)
    (hcontent : lm.content = .str q)
    (hm1 : Dify.dfind st1.chat_message_mapping chat_id = some m1) :
    Dify.pipe st env body chat_id message_id user_email none =
      (let fb := Dify.flag_block env.file_info env.get_file_server
       let payload : Dify.Payload :=
         { inputs :=
             { model := Dify.extract_model_name body.model,
               system_message := Dify.sys_content sys },
           parent_message_id := p,
           query := q,
           response_mode := if body.stream then "streaming" else "blocking",
           conversation_id := m1.dify_conversation_id,
           user := user_email,
           files := fb.1 }
       let effs2 : List Dify.Effect := fb.2 ++ [.chat_request payload body.stream]
       if body.stream then
         let r := Dify.stream_response st1 chat_id message_id env.stream_result
         ⟨.ok (.chunks r.1), r.2.1, effs2 ++ r.2.2⟩
       else
         let r := Dify.non_stream_response st1 chat_id message_id env.blocking_result
         match r.1 with
         | .ok s => ⟨.ok (.str s), r.2.1, effs2 ++ r.2.2⟩
         | .error e =>
           ⟨.ok (.str ("Error: " ++ Dify.pyexc_str e)), r.2.1, effs2 ++ r.2.2⟩) := by
  simp [Dify.pipe, hpop, hhist, hlast, hcontent, hm1]

/-- Helper: same normal path, but the chat has no mapping entry when the
payload is built, so `pipe` raises `KeyError` after the flag block ran. -/
theorem pipe_text_run_nomap (st st1 : Dify.PipeState) (env : Dify.PipeEnv)
    (body : Dify.Body) (chat_id message_id user_email : String)
    (sys : Option Dify.Message) (msgs : List Dify.Message) (p : Option String)
    (lm : Dify.Message) (q : String)
    (hpop : Dify.pop_system_message body.messages = (sys, msgs))
    (hhist : Dify.history_update st chat_id (Dify.extract_model_name body.model)
        msgs.length = .ok (st1, p))
    (hlast : msgs.getLast? = some lm)
    (hcontent : lm.content = .str q)
    (hm1 : Dify.dfind st1.chat_message_mapping chat_id = none) :
    Dify.pipe st env body chat_id message_id user_email none =
      ⟨.error (.keyError chat_id), st1,
       (Dify.flag_block env.file_info env.get_file_server).2⟩ := by
  simp [Dify.pipe, hpop, hhist, hlast, hcontent, hm1]

/-- Helper: `history_update` on a known chat whose binding matches the
current model, for more than one message: truncate when the history is
long enough, no-op otherwise. -/
theorem history_update_bound (st : Dify.PipeState) (chat_id mn : String) (n : Nat)
    (m : Dify.ChatMapping) (h1 : ¬ n = 1)
    (hm : Dify.dfind st.chat_message_mapping chat_id = some m)
    (hb : Dify.dfind st.dify_chat_model chat_id = some mn) :
    Dify.history_update st chat_id mn n =
      if 0 < n - 1 ∧ n - 1 ≤ m.messages.length then
        .ok (⟨Dify.dinsert st.chat_message_mapping chat_id
                ⟨m.dify_conversation_id, m.messages.take (n - 1)⟩,
              st.dify_chat_model, st.dify_file_list⟩,
             (m.messages.get? (n - 1 - 1)).map Prod.snd)
      else .ok (st, none) := by
  by_cases hk : 0 < n - 1 ∧ n - 1 ≤ m.messages.length <;>
    simp [Dify.history_update, h1, hm, hb, hk]

/-- Helper: `history_update` on a known chat with no recorded binding,
for more than one message: the binding is backfilled and the history is
truncated when long enough. -/
theorem history_update_unbound (st : Dify.PipeState) (chat_id mn : String) (n : Nat)
    (m : Dify.ChatMapping) (h1 : ¬ n = 1)
    (hm : Dify.dfind st.chat_message_mapping chat_id = some m)
    (hb : Dify.dfind st.dify_chat_model chat_id = none) :
    Dify.history_update st chat_id mn n =
      if 0 < n - 1 ∧ n - 1 ≤ m.messages.length then
        .ok (⟨Dify.dinsert st.chat_message_mapping chat_id
                ⟨m.dify_conversation_id, m.messages.take (n - 1)⟩,
              Dify.dinsert st.dify_chat_model chat_id mn, st.dify_file_list⟩,
             (m.messages.get? (n - 1 - 1)).map Prod.snd)
      else .ok (⟨st.chat_message_mapping,
                 Dify.dinsert st.dify_chat_model chat_id mn,
                 st.dify_file_list⟩, none) := by
  by_cases hk : 0 < n - 1 ∧ n - 1 ≤ m.messages.length <;>
    simp [Dify.history_update, h1, hm, hb, hk]

/-- C4 (amended): a pipe invocation with more than one message, for a
chat present in the chat-message mapping whose recorded binding differs
from the current model name, raises the model-switch `ValueError`
carrying the originally bound model's name, with the state unmodified
and no effect performed. -/
theorem c4_model_switch_rejected (st : Dify.PipeState) (env : Dify.PipeEnv)
    (body : Dify.Body) (chat_id message_id user_email prev : String)
    (m : Dify.ChatMapping)
    (hlen : 1 < (Dify.pop_system_message body.messages).2.length)
    (hm : Dify.dfind st.chat_message_mapping chat_id = some m)
    (hb : Dify.dfind st.dify_chat_model chat_id = some prev)
    (hne : ¬ prev = Dify.extract_model_name body.model) :
    Dify.pipe st env body chat_id message_id user_email none =
      ⟨.error (.valueError
        ("Cannot change model in an existing conversation. This conversation was started with "
          ++ prev)), st, []⟩ := by
  have h1 : ¬ (Dify.pop_system_message body.messages).2.length = 1 := by omega
  simp [Dify.pipe, Dify.history_update, h1, hm, hb, hne]

/-- Witness for C4 on a concrete state bound to model `A` and a request
for model `B`. -/
theorem c4_witness :
    Dify.pipe ⟨[("c", ⟨"conv", []⟩)], [("c", "A")], []⟩ Fixtures.dify_env
        Fixtures.body2 "c" "mid" "alice" none =
      ⟨.error (.valueError
        ("Cannot change model in an existing conversation. This conversation was started with "
          ++ "A")),
       ⟨[("c", ⟨"conv", []⟩)], [("c", "A")], []⟩, []⟩ :=
  c4_model_switch_rejected _ _ _ _ _ _ _ ⟨"conv", []⟩ (by decide) rfl rfl (by decide)

/-- Counterexample to C4 as stated: when the chat has a recorded binding
(`A`) that differs from the current model (`B`) but no entry in the
chat-message mapping, no model-switch error is raised — the invocation
instead dies with a `KeyError` whose text does not name the bound
model. -/
theorem c4_counterexample :
    Dify.dfind Fixtures.dify_st_nomap.dify_chat_model "c" = some "A"
    ∧ Dify.dfind Fixtures.dify_st_nomap.chat_message_mapping "c" = none
    ∧ ¬ "A" = Dify.extract_model_name Fixtures.body2.model
    ∧ (Dify.pipe Fixtures.dify_st_nomap Fixtures.dify_env Fixtures.body2
        "c" "mid" "alice" none).result = .error (.keyError "c")
    ∧ Dify.is_value_error
        (Dify.pipe Fixtures.dify_st_nomap Fixtures.dify_env Fixtures.body2
          "c" "mid" "alice" none).result = false := by
  refine ⟨rfl, rfl, by decide, rfl, rfl⟩

/-- C2: a pipe invocation whose message list (after removing the system
message) has exactly one entry resets the chat's state: empty remote
conversation id, empty history, cleared per-chat file list, and the
model binding set to the current model name. -/
theorem c2_single_message_resets (st : Dify.PipeState) (env : Dify.PipeEnv)
    (body : Dify.Body) (chat_id message_id user_email e : String)
    (sys : Option Dify.Message) (m1 : Dify.Message) (q : String)
    (hpop : Dify.pop_system_message body.messages = (sys, [m1]))
    (hcontent : m1.content = .str q)
    (hstream : body.stream = false)
    (henv : env.blocking_result = .transport_error e) :
    Dify.dfind (Dify.pipe st env body chat_id message_id user_email
        none).state.chat_message_mapping chat_id = some ⟨"", []⟩
    ∧ Dify.dfind (Dify.pipe st env body chat_id message_id user_email
        none).state.dify_chat_model chat_id =
        some (Dify.extract_model_name body.model)
    ∧ Dify.dfind (Dify.pipe st env body chat_id message_id user_email
        none).state.dify_file_list chat_id = some [] := by
  have hhist : Dify.history_update st chat_id (Dify.extract_model_name body.model)
      ([m1] : List Dify.Message).length =
      .ok (⟨Dify.dinsert st.chat_message_mapping chat_id ⟨"", []⟩,
            Dify.dinsert st.dify_chat_model chat_id
              (Dify.extract_model_name body.model),
            Dify.dinsert st.dify_file_list chat_id []⟩, none) := by
    simp [Dify.history_update]
  have hrun := pipe_text_run st _ env body chat_id message_id user_email sys [m1]
    none ⟨"", []⟩ m1 q hpop hhist rfl hcontent (dfind_dinsert_self _ _ _)
  rw [hrun]
  simp [hstream, henv, Dify.non_stream_response, dfind_dinsert_self]

/-- Witness for C2 on a concrete single-message invocation. -/
theorem c2_witness :
    Dify.dfind (Dify.pipe Fixtures.dify_st3 Fixtures.dify_env Fixtures.body1
        "c" "mid" "alice" none).state.chat_message_mapping "c" = some ⟨"", []⟩
    ∧ Dify.dfind (Dify.pipe Fixtures.dify_st3 Fixtures.dify_env Fixtures.body1
        "c" "mid" "alice" none).state.dify_chat_model "c" =
        some (Dify.extract_model_name Fixtures.body1.model)
    ∧ Dify.dfind (Dify.pipe Fixtures.dify_st3 Fixtures.dify_env Fixtures.body1
        "c" "mid" "alice" none).state.dify_file_list "c" = some [] :=
  c2_single_message_resets Fixtures.dify_st3 Fixtures.dify_env Fixtures.body1
    "c" "mid" "alice" "down" none ⟨"user", .str "hi"⟩ "hi" rfl rfl rfl rfl

/-- C10: a pipe invocation with more than one message for a chat that
has a mapping entry but no recorded model binding raises no model-switch
error: the current model name is recorded as the binding and processing
continues to the upstream request. -/
theorem c10_missing_binding_recorded (st : Dify.PipeState) (env : Dify.PipeEnv)
    (body : Dify.Body) (chat_id message_id user_email e : String)
    (sys : Option Dify.Message) (msgs : List Dify.Message) (m : Dify.ChatMapping)
    (lm : Dify.Message) (q : String)
    (hpop : Dify.pop_system_message body.messages = (sys, msgs))
    (hlen : 1 < msgs.length)
    (hm : Dify.dfind st.chat_message_mapping chat_id = some m)
    (hb : Dify.dfind st.dify_chat_model chat_id = none)
    (hlast : msgs.getLast? = some lm)
    (hcontent : lm.content = .str q)
    (hstream : body.stream = false)
    (hflag : env.file_info.flag = false)
    (henv : env.blocking_result = .transport_error e) :
    Dify.dfind (Dify.pipe st env body chat_id message_id user_email
        none).state.dify_chat_model chat_id =
      some (Dify.extract_model_name body.model)
    ∧ (Dify.pipe st env body chat_id message_id user_email none).result =
        .ok (.str ("Error: " ++ e))
    ∧ ∃ pl, (Dify.pipe st env body chat_id message_id user_email none).effects =
        [.chat_request pl false] := by
  have h1 : ¬ msgs.length = 1 := by omega
  have hchar := history_update_unbound st chat_id
    (Dify.extract_model_name body.model) msgs.length m h1 hm hb
  by_cases hk : 0 < msgs.length - 1 ∧ msgs.length - 1 ≤ m.messages.length
  · rw [if_pos hk] at hchar
    have hrun := pipe_text_run st _ env body chat_id message_id user_email sys msgs
      _ ⟨m.dify_conversation_id, m.messages.take (msgs.length - 1)⟩ lm q hpop hchar
      hlast hcontent (dfind_dinsert_self _ _ _)
    rw [hrun]
    simp [hstream, henv, hflag, Dify.non_stream_response, Dify.flag_block,
      dfind_dinsert_self]
  · rw [if_neg hk] at hchar
    have hrun := pipe_text_run st _ env body chat_id message_id user_email sys msgs
      _ m lm q hpop hchar hlast hcontent hm
    rw [hrun]
    simp [hstream, henv, hflag, Dify.non_stream_response, Dify.flag_block,
      dfind_dinsert_self]

/-- Witness for C10: two messages, mapping entry present, no binding. -/
theorem c10_witness :
    Dify.dfind (Dify.pipe ⟨[("c", ⟨"conv", [("l1", "r1")]⟩)], [], []⟩
        Fixtures.dify_env Fixtures.body2 "c" "mid" "alice"
        none).state.dify_chat_model "c" =
      some (Dify.extract_model_name Fixtures.body2.model)
    ∧ (Dify.pipe ⟨[("c", ⟨"conv", [("l1", "r1")]⟩)], [], []⟩ Fixtures.dify_env
        Fixtures.body2 "c" "mid" "alice" none).result =
        .ok (.str ("Error: " ++ "down"))
    ∧ ∃ pl, (Dify.pipe ⟨[("c", ⟨"conv", [("l1", "r1")]⟩)], [], []⟩ Fixtures.dify_env
        Fixtures.body2 "c" "mid" "alice" none).effects =
        [.chat_request pl false] :=
  c10_missing_binding_recorded ⟨[("c", ⟨"conv", [("l1", "r1")]⟩)], [], []⟩
    Fixtures.dify_env Fixtures.body2 "c" "mid" "alice" "down" none
    (Dify.pop_system_message Fixtures.body2.messages).2 ⟨"conv", [("l1", "r1")]⟩
    ⟨"user", .str "again"⟩ "again" rfl (by decide) rfl rfl rfl rfl rfl rfl rfl

/-- C1: a pipe invocation with more than one message for a chat present
in the mapping (whose binding, if any, matches the current model), with
current message index k = len(messages) - 1: when the stored history has
at least k entries, the parent message id sent upstream is the remote id
recorded at position k - 1 and the stored history is truncated to its
first k entries; otherwise the parent id is None and the history is left
unchanged. -/
theorem c1_edit_truncates_history (st : Dify.PipeState) (env : Dify.PipeEnv)
    (body : Dify.Body) (chat_id message_id user_email e : String)
    (sys : Option Dify.Message) (msgs : List Dify.Message) (m : Dify.ChatMapping)
    (lm : Dify.Message) (q : String)
    (hpop : Dify.pop_system_message body.messages = (sys, msgs))
    (hlen : 1 < msgs.length)
    (hm : Dify.dfind st.chat_message_mapping chat_id = some m)
    (hmc : Dify.dfind st.dify_chat_model chat_id = none ∨
           Dify.dfind st.dify_chat_model chat_id =
             some (Dify.extract_model_name body.model))
    (hlast : msgs.getLast? = some lm)
    (hcontent : lm.content = .str q)
    (hstream : body.stream = false)
    (hflag : env.file_info.flag = false)
    (henv : env.blocking_result = .transport_error e) :
    (msgs.length - 1 ≤ m.messages.length →
      Dify.dfind (Dify.pipe st env body chat_id message_id user_email
          none).state.chat_message_mapping chat_id =
        some ⟨m.dify_conversation_id, m.messages.take (msgs.length - 1)⟩
      ∧ ∃ pl, (Dify.pipe st env body chat_id message_id user_email none).effects =
            [.chat_request pl false]
          ∧ pl.parent_message_id =
              (m.messages.get? (msgs.length - 1 - 1)).map Prod.snd)
    ∧ (m.messages.length < msgs.length - 1 →
      Dify.dfind (Dify.pipe st env body chat_id message_id user_email
          none).state.chat_message_mapping chat_id = some m
      ∧ ∃ pl, (Dify.pipe st env body chat_id message_id user_email none).effects =
            [.chat_request pl false]
          ∧ pl.parent_message_id = none) := by
  have h1 : ¬ msgs.length = 1 := by omega
  constructor
  · intro hk'
    have hk : 0 < msgs.length - 1 ∧ msgs.length - 1 ≤ m.messages.length :=
      ⟨by omega, hk'⟩
    rcases hmc with hb | hb
    · have hchar := history_update_unbound st chat_id
        (Dify.extract_model_name body.model) msgs.length m h1 hm hb
      rw [if_pos hk] at hchar
      have hrun := pipe_text_run st _ env body chat_id message_id user_email sys msgs
        _ ⟨m.dify_conversation_id, m.messages.take (msgs.length - 1)⟩ lm q hpop hchar
        hlast hcontent (dfind_dinsert_self _ _ _)
      rw [hrun]
      refine ⟨?_, ⟨⟨⟨Dify.extract_model_name body.model, Dify.sys_content sys⟩,
        (m.messages.get? (msgs.length - 1 - 1)).map Prod.snd, q, "blocking",
        m.dify_conversation_id, user_email, []⟩, ?_, rfl⟩⟩ <;>
        simp [hstream, henv, hflag, Dify.non_stream_response, Dify.flag_block,
          dfind_dinsert_self]
    · have hchar := history_update_bound st chat_id
        (Dify.extract_model_name body.model) msgs.length m h1 hm hb
      rw [if_pos hk] at hchar
      have hrun := pipe_text_run st _ env body chat_id message_id user_email sys msgs
        _ ⟨m.dify_conversation_id, m.messages.take (msgs.length - 1)⟩ lm q hpop hchar
        hlast hcontent (dfind_dinsert_self _ _ _)
      rw [hrun]
      refine ⟨?_, ⟨⟨⟨Dify.extract_model_name body.model, Dify.sys_content sys⟩,
        (m.messages.get? (msgs.length - 1 - 1)).map Prod.snd, q, "blocking",
        m.dify_conversation_id, user_email, []⟩, ?_, rfl⟩⟩ <;>
        simp [hstream, henv, hflag, Dify.non_stream_response, Dify.flag_block,
          dfind_dinsert_self]
  · intro hk'
    have hkneg : ¬ (0 < msgs.length - 1 ∧ msgs.length - 1 ≤ m.messages.length) := by
      omega
    rcases hmc with hb | hb
    · have hchar := history_update_unbound st chat_id
        (Dify.extract_model_name body.model) msgs.length m h1 hm hb
      rw [if_neg hkneg] at hchar
      have hrun := pipe_text_run st _ env body chat_id message_id user_email sys msgs
        _ m lm q hpop hchar hlast hcontent hm
      rw [hrun]
      refine ⟨?_, ⟨⟨⟨Dify.extract_model_name body.model, Dify.sys_content sys⟩,
        none, q, "blocking", m.dify_conversation_id, user_email, []⟩, ?_, rfl⟩⟩ <;>
        simp [hstream, henv, hflag, Dify.non_stream_response, Dify.flag_block, hm]
    · have hchar := history_update_bound st chat_id
        (Dify.extract_model_name body.model) msgs.length m h1 hm hb
      rw [if_neg hkneg] at hchar
      have hrun := pipe_text_run st _ env body chat_id message_id user_email sys msgs
        _ m lm q hpop hchar hlast hcontent hm
      rw [hrun]
      refine ⟨?_, ⟨⟨⟨Dify.extract_model_name body.model, Dify.sys_content sys⟩,
        none, q, "blocking", m.dify_conversation_id, user_email, []⟩, ?_, rfl⟩⟩ <;>
        simp [hstream, henv, hflag, Dify.non_stream_response, Dify.flag_block, hm]

/-- Witness for C1: three messages, stored history of three entries —
parent is the remote id at position 1 and the history is cut to two
entries. -/
theorem c1_witness :
    Dify.dfind (Dify.pipe Fixtures.dify_st3 Fixtures.dify_env Fixtures.body3
        "c" "mid" "alice" none).state.chat_message_mapping "c" =
      some ⟨"conv", [("l1", "r1"), ("l2", "r2")]⟩
    ∧ ∃ pl, (Dify.pipe Fixtures.dify_st3 Fixtures.dify_env Fixtures.body3
          "c" "mid" "alice" none).effects = [.chat_request pl false]
        ∧ pl.parent_message_id = some "r2" := by
  have h := (c1_edit_truncates_history Fixtures.dify_st3 Fixtures.dify_env
    Fixtures.body3 "c" "mid" "alice" "down" none
    [⟨"user", .str "hi"⟩, ⟨"assistant", .str "yo"⟩, ⟨"user", .str "again"⟩]
    ⟨"conv", [("l1", "r1"), ("l2", "r2"), ("l3", "r3")]⟩
    ⟨"user", .str "again"⟩ "again" rfl (by decide) rfl (Or.inr rfl) rfl rfl rfl
    rfl rfl).1 (by decide)
  simpa using h

/-- C3: a remote response carrying conversation id C and message id M —
a streaming `message_end` event (the first terminal event of the body)
or a blocking 200 response — leaves the chat's entry with
remote_conversation_id C and the history extended by the singleton
{local message id → M} as its last element, and the three state
dictionaries are flushed (`save_state`). -/
theorem c3_remote_ids_recorded (st : Dify.PipeState)
    (chat_id message_id C M txt a : String) (m : Dify.ChatMapping)
    (pre post : List Dify.StreamLine)
    (hm : Dify.dfind st.chat_message_mapping chat_id = some m)
    (hpre : ∀ l ∈ pre, Dify.terminal_line l = false) :
    (Dify.dfind (Dify.stream_response st chat_id message_id
        (.response 200 txt (pre ++ .data_event (.message_end C M) ::
          post))).2.1.chat_message_mapping chat_id =
        some ⟨C, m.messages ++ [(message_id, M)]⟩
     ∧ (Dify.stream_response st chat_id message_id
        (.response 200 txt (pre ++ .data_event (.message_end C M) :: post))).2.2 =
        Dify.save_state_effects
          (Dify.stream_response st chat_id message_id
            (.response 200 txt (pre ++ .data_event (.message_end C M) ::
              post))).2.1)
    ∧ ((Dify.non_stream_response st chat_id message_id
          (.response 200 txt (.ok ⟨C, M, a⟩))).1 = .ok a
       ∧ Dify.dfind (Dify.non_stream_response st chat_id message_id
          (.response 200 txt (.ok ⟨C, M, a⟩))).2.1.chat_message_mapping chat_id =
          some ⟨C, m.messages ++ [(message_id, M)]⟩
       ∧ (Dify.non_stream_response st chat_id message_id
          (.response 200 txt (.ok ⟨C, M, a⟩))).2.2 =
          Dify.save_state_effects
            (Dify.non_stream_response st chat_id message_id
              (.response 200 txt (.ok ⟨C, M, a⟩))).2.1) := by
  have h2 : (Dify.stream_response st chat_id message_id
      (.response 200 txt (pre ++ .data_event (.message_end C M) :: post))).2 =
      (Dify.stream_loop chat_id message_id st
        (Dify.StreamLine.data_event (.message_end C M) :: post)).2 := by
    simp only [Dify.stream_response]
    rw [if_neg (by simp)]
    exact stream_loop_skip chat_id message_id st pre _ hpre
  constructor
  · constructor
    · rw [show (Dify.stream_response st chat_id message_id
          (.response 200 txt (pre ++ .data_event (.message_end C M) ::
            post))).2.1 = _ from congrArg Prod.fst h2]
      simp [Dify.stream_loop, hm, dfind_dinsert_self]
    · rw [show (Dify.stream_response st chat_id message_id
          (.response 200 txt (pre ++ .data_event (.message_end C M) ::
            post))).2.1 = _ from congrArg Prod.fst h2,
          show (Dify.stream_response st chat_id message_id
          (.response 200 txt (pre ++ .data_event (.message_end C M) ::
            post))).2.2 = _ from congrArg Prod.snd h2]
      simp [Dify.stream_loop, hm]
  · refine ⟨?_, ?_, ?_⟩ <;>
      simp [Dify.non_stream_response, hm, dfind_dinsert_self,
        Dify.save_state_effects]

/-- Witness for C3 on a concrete stream and a concrete blocking body. -/
theorem c3_witness :
    (Dify.dfind (Dify.stream_response Fixtures.dify_st3 "c" "mid"
        (.response 200 "" ([.data_event (.message "partial")] ++
          .data_event (.message_end "newconv" "dm") ::
          []))).2.1.chat_message_mapping "c" =
        some ⟨"newconv", [("l1", "r1"), ("l2", "r2"), ("l3", "r3"), ("mid", "dm")]⟩
     ∧ (Dify.stream_response Fixtures.dify_st3 "c" "mid"
        (.response 200 "" ([.data_event (.message "partial")] ++
          .data_event (.message_end "newconv" "dm") :: []))).2.2 =
        Dify.save_state_effects
          (Dify.stream_response Fixtures.dify_st3 "c" "mid"
            (.response 200 "" ([.data_event (.message "partial")] ++
              .data_event (.message_end "newconv" "dm") :: []))).2.1)
    ∧ ((Dify.non_stream_response Fixtures.dify_st3 "c" "mid"
          (.response 200 "" (.ok ⟨"newconv", "dm", "answer"⟩))).1 = .ok "answer"
       ∧ Dify.dfind (Dify.non_stream_response Fixtures.dify_st3 "c" "mid"
          (.response 200 "" (.ok ⟨"newconv", "dm", "answer"⟩))).2.1.chat_message_mapping
          "c" =
          some ⟨"newconv", [("l1", "r1"), ("l2", "r2"), ("l3", "r3"), ("mid", "dm")]⟩
       ∧ (Dify.non_stream_response Fixtures.dify_st3 "c" "mid"
          (.response 200 "" (.ok ⟨"newconv", "dm", "answer"⟩))).2.2 =
          Dify.save_state_effects
            (Dify.non_stream_response Fixtures.dify_st3 "c" "mid"
              (.response 200 "" (.ok ⟨"newconv", "dm", "answer"⟩))).2.1) :=
  c3_remote_ids_recorded Fixtures.dify_st3 "c" "mid" "newconv" "dm" "" "answer"
    ⟨"conv", [("l1", "r1"), ("l2", "r2"), ("l3", "r3")]⟩
    [.data_event (.message "partial")] [] rfl (by decide)

/-- C7 (amended): transport failures and non-200 statuses at the remote
backend boundary are turned into user-visible error chunks (streaming)
or error strings (blocking, with `pipe` catching the exception escaping
`non_stream_response`), and a JSON decode failure of a blocking response
is returned as an error string; a malformed `data:` line in a streaming
response is skipped silently (logged only) without any error chunk, and
in no case does the exception propagate to the host. -/
theorem c7_backend_errors_surfaced (st st1 : Dify.PipeState) (env : Dify.PipeEnv)
    (body : Dify.Body) (chat_id message_id user_email : String)
    (sys : Option Dify.Message) (msgs : List Dify.Message) (p : Option String)
    (m1 : Dify.ChatMapping) (lm : Dify.Message) (q : String)
    (hpop : Dify.pop_system_message body.messages = (sys, msgs))
    (hhist : Dify.history_update st chat_id (Dify.extract_model_name body.model)
        msgs.length = .ok (st1, p))
    (hlast : msgs.getLast? = some lm)
    (hcontent : lm.content = .str q)
    (hm1 : Dify.dfind st1.chat_message_mapping chat_id = some m1) :
    (∀ e2, Dify.stream_response st chat_id message_id (.transport_error e2) =
        (["Error: Request failed: " ++ e2], st, []))
    ∧ (∀ status txt lines, ¬ status = 200 →
        Dify.stream_response st chat_id message_id (.response status txt lines) =
          (["Error: HTTP Error " ++ toString status ++ ": " ++ txt], st, []))
    ∧ (∀ r rest, Dify.stream_loop chat_id message_id st (.data_malformed r :: rest) =
        Dify.stream_loop chat_id message_id st rest)
    ∧ (∀ e2, Dify.non_stream_response st chat_id message_id (.transport_error e2) =
        (.ok ("Error: " ++ e2), st, []))
    ∧ (∀ status txt bdy, ¬ status = 200 →
        Dify.non_stream_response st chat_id message_id (.response status txt bdy) =
          (.error (.exc ("HTTP Error " ++ toString status ++ ": " ++ txt)), st, []))
    ∧ (∀ txt e2, Dify.non_stream_response st chat_id message_id
        (.response 200 txt (.error e2)) = (.ok ("Error: " ++ e2), st, []))
    ∧ (body.stream = false → ∀ status txt bdy,
        env.blocking_result = .response status txt bdy → ¬ status = 200 →
        (Dify.pipe st env body chat_id message_id user_email none).result =
          .ok (.str ("Error: " ++
            ("HTTP Error " ++ toString status ++ ": " ++ txt)))) := by
  refine ⟨fun e2 => rfl, ?_, fun r rest => rfl, fun e2 => rfl, ?_, fun txt e2 => rfl, ?_⟩
  · intro status txt lines h
    simp [Dify.stream_response, h]
  · intro status txt bdy h
    simp [Dify.non_stream_response, h]
  · intro hstream status txt bdy henv hne
    rw [pipe_text_run st st1 env body chat_id message_id user_email sys msgs p m1
      lm q hpop hhist hlast hcontent hm1]
    simp [hstream, henv, hne, Dify.non_stream_response, Dify.pyexc_str]

/-- Witness for C7: a blocking 500 answer surfaces as an error string
returned by `pipe`. -/
theorem c7_witness :
    (Dify.pipe Fixtures.dify_st3 Fixtures.dify_env_500 Fixtures.body3
        "c" "mid" "alice" none).result =
      .ok (.str ("Error: " ++ ("HTTP Error " ++ toString 500 ++ ": " ++ "oops"))) :=
  (c7_backend_errors_surfaced Fixtures.dify_st3
    ⟨[("c", ⟨"conv", [("l1", "r1"), ("l2", "r2")]⟩)], [("c", "M")], []⟩
    Fixtures.dify_env_500 Fixtures.body3 "c" "mid" "alice" none
    [⟨"user", .str "hi"⟩, ⟨"assistant", .str "yo"⟩, ⟨"user", .str "again"⟩]
    (some "r2") ⟨"conv", [("l1", "r1"), ("l2", "r2")]⟩ ⟨"user", .str "again"⟩
    "again" rfl rfl rfl rfl rfl).2.2.2.2.2.2 rfl 500 "oops" (.ok ⟨"", "", ""⟩)
    rfl (by decide)

/-- Counterexample to C7 as stated: a streaming response consisting of a
single malformed `data:` line produces no chunks at all — in particular
no user-visible error chunk — although the claim requires one for
malformed JSON. -/
theorem c7_counterexample :
    (Dify.pipe Fixtures.dify_st3 Fixtures.dify_env_malformed
        (Dify.Body.mk "dify.M"
          [⟨"user", .str "hi"⟩, ⟨"assistant", .str "yo"⟩, ⟨"user", .str "again"⟩]
          true)
        "c" "mid" "alice" none).result = .ok (.chunks []) := rfl

/-- C9: an invocation that finds the pending-upload flag true and runs
to the flag block (the history block succeeded and the last message is
plain text) first writes the flag file back with the flag cleared and
only then attempts the pending upload: the write effect immediately
precedes the upload effect in the trace, and each occurs exactly once. -/
theorem c9_flag_cleared_before_use (st st1 : Dify.PipeState) (env : Dify.PipeEnv)
    (body : Dify.Body) (chat_id message_id user_email : String)
    (sys : Option Dify.Message) (msgs : List Dify.Message) (p : Option String)
    (lm : Dify.Message) (q : String)
    (hpop : Dify.pop_system_message body.messages = (sys, msgs))
    (hhist : Dify.history_update st chat_id (Dify.extract_model_name body.model)
        msgs.length = .ok (st1, p))
    (hlast : msgs.getLast? = some lm)
    (hcontent : lm.content = .str q)
    (hflag : env.file_info.flag = true) :
    ∃ post2, (Dify.pipe st env body chat_id message_id user_email none).effects =
      .write_flag_file { env.file_info with flag := false } ::
      .upload_call env.file_info.user_id
        (env.file_info.id ++ "_" ++ env.file_info.name) :: post2 := by
  cases hfind : Dify.dfind st1.chat_message_mapping chat_id with
  | none =>
    rw [pipe_text_run_nomap st st1 env body chat_id message_id user_email sys msgs
      p lm q hpop hhist hlast hcontent hfind]
    cases hup : env.get_file_server env.file_info.user_id
        (env.file_info.id ++ "_" ++ env.file_info.name) with
    | ok fid =>
      refine ⟨[], ?_⟩
      simp [Dify.flag_block, hflag, hup]
    | error e2 =>
      refine ⟨[], ?_⟩
      simp [Dify.flag_block, hflag, hup]
  | some m1 =>
    rw [pipe_text_run st st1 env body chat_id message_id user_email sys msgs p m1
      lm q hpop hhist hlast hcontent hfind]
    cases hup : env.get_file_server env.file_info.user_id
        (env.file_info.id ++ "_" ++ env.file_info.name) with
    | ok fid =>
      cases hs : body.stream
      · cases hres : (Dify.non_stream_response st1 chat_id message_id
            env.blocking_result).1 <;>
          simp [Dify.flag_block, hflag, hup, hs, hres]
      · simp [Dify.flag_block, hflag, hup, hs]
    | error e2 =>
      cases hs : body.stream
      · cases hres : (Dify.non_stream_response st1 chat_id message_id
            env.blocking_result).1 <;>
          simp [Dify.flag_block, hflag, hup, hs, hres]
      · simp [Dify.flag_block, hflag, hup, hs]

/-- Witness for C9 on a concrete pending upload `42_report.pdf`. -/
theorem c9_witness :
    ∃ post2, (Dify.pipe Fixtures.dify_st3 Fixtures.dify_env_flag Fixtures.body3
        "c" "mid" "alice" none).effects =
      .write_flag_file { Fixtures.dify_env_flag.file_info with flag := false } ::
      .upload_call Fixtures.dify_env_flag.file_info.user_id
        (Fixtures.dify_env_flag.file_info.id ++ "_" ++
          Fixtures.dify_env_flag.file_info.name) :: post2 :=
  c9_flag_cleared_before_use Fixtures.dify_st3
    ⟨[("c", ⟨"conv", [("l1", "r1"), ("l2", "r2")]⟩)], [("c", "M")], []⟩
    Fixtures.dify_env_flag Fixtures.body3 "c" "mid" "alice" none
    [⟨"user", .str "hi"⟩, ⟨"assistant", .str "yo"⟩, ⟨"user", .str "again"⟩]
    (some "r2") ⟨"user", .str "again"⟩ "again" rfl rfl rfl rfl rfl
